import Mathlib

/-!
Verification of the PaperBuddy research-paper tutor (src/app.py, src/config.py).

The application is a Streamlit script.  Per user session Streamlit keeps a
mutable session_state with three fields used by the app:
  messages  : list of role/content message dicts (the transcript),
  paper_txt : the extracted markdown text of the uploaded PDF (or None),
  llm       : the lisette Chat handle (or None).
The script reruns top to bottom on every user interaction; each interaction
triggers exactly one of the handler blocks below.  We embed the session state,
the configuration constants, the prompt builder and the four handler blocks
(upload, reinitialize, clear chat, chat turn) as pure Lean functions.  The two
external collaborators are injected as data carried by the event:
  - PDF extraction (pymupdf4llm.to_markdown) as an Except value,
  - Chat construction failure and Chat call results as Option/Except values.
A Chat handle is modelled by the arguments the code passes to the lisette
Chat constructor (model, sp, temp); its construction is deterministic in them.
-/

/-! ### Configuration constants (src/config.py) -/

/-- Text of SYSTEM_PROMPT_TEMPLATE before the single format field
(config.py lines 6-10: the leading newline after the opening triple quote,
two lines of text where line 8 ends in an escaped newline plus the line break,
and the blank line before the field). -/
def SYSTEM_PROMPT_BEFORE : String :=
  "\nYou are helping someone understand an academic paper.\nHere is the paper \n\n\n"

/-- Rule line 1 of the CRITICAL RULES block (config.py line 13). -/
def RULE1 : String :=
  "1. NEVER explain everything at once. Take ONE small step, then STOP and wait."

/-- Rule line 2 (config.py line 14). -/
def RULE2 : String :=
  "2. ALWAYS start by asking what the learner already knows about the topic."

/-- Rule line 3 (config.py line 15). -/
def RULE3 : String :=
  "3. After each explanation, ask a question to check understanding OR ask what they want to explore next."

/-- Rule line 4 (config.py line 16). -/
def RULE4 : String :=
  "4. Keep responses SHORT (2-4 paragraphs max). End with a question."

/-- Rule line 5 (config.py line 17; the source line has a trailing space). -/
def RULE5 : String :=
  "5. Use concrete examples and analogies before math. "

/-- Rule line 6 (config.py line 18). -/
def RULE6 : String :=
  "6. Build foundations with code - Teach unfamiliar mathematical concepts through small numpy experiments rather than pure theory. Let the learner run code and observe patterns."

/-- Rule line 7 (config.py line 19). -/
def RULE7 : String :=
  "7. If they ask \"explain X\", first ask what parts of X they already understand."

/-- Rule line 8 (config.py line 20). -/
def RULE8 : String :=
  "8. Use string format like this for formula display `L_ij = q_i × q_j × exp(-α × D_ij^γ)`."

/-- The eight fixed rule lines of the system instruction template. -/
def RULE_LINES : List String :=
  [RULE1, RULE2, RULE3, RULE4, RULE5, RULE6, RULE7, RULE8]

/-- Header between the format field and the rule lines
(config.py lines 10-12: line break after the field, blank line, header line). -/
def RULES_HEADER : String := "\n\nCRITICAL RULES:\n"

/-- Text of SYSTEM_PROMPT_TEMPLATE after the last rule line
(config.py lines 20-27: TEACHING FLOW block and the BAD example). -/
def AFTER_RULES : String :=
  "\n\nTEACHING FLOW:\n- Assess background → Build intuition with examples → Connect to math → Let learner guide direction\n\nBAD (don\x27t do this):\n\"Here\x27s everything about DPPs: [wall of text with all equations]\"\n"

/-- Text of SYSTEM_PROMPT_TEMPLATE after the single format field. -/
def SYSTEM_PROMPT_AFTER : String :=
  RULES_HEADER ++ RULE1 ++ "\n" ++ RULE2 ++ "\n" ++ RULE3 ++ "\n" ++ RULE4 ++ "\n"
    ++ RULE5 ++ "\n" ++ RULE6 ++ "\n" ++ RULE7 ++ "\n" ++ RULE8 ++ AFTER_RULES

/-- SYSTEM_PROMPT_TEMPLATE (config.py lines 6-27).  The template contains
exactly one format field, written here with escaped braces, and no other
brace character, so Python str.format on it is total and replaces exactly
this occurrence by the argument. -/
def SYSTEM_PROMPT_TEMPLATE : String :=
  SYSTEM_PROMPT_BEFORE ++ "\x7bpaper_txt\x7d" ++ SYSTEM_PROMPT_AFTER

/-- DEFAULT_MODEL (config.py line 30). -/
def DEFAULT_MODEL : String := "gpt-4o-mini"

/-- DEFAULT_TEMPERATURE (config.py line 31), as an exact rational. -/
def DEFAULT_TEMPERATURE : ℚ := 0.4

/-- MAX_PAPER_CHARS (config.py line 34). -/
def MAX_PAPER_CHARS : ℕ := 100000

/-- WARNING_PAPER_CHARS (config.py line 35). -/
def WARNING_PAPER_CHARS : ℕ := 80000

/-! ### Prompt builder (app.py lines 18-28) -/

/-- create_system_prompt (app.py lines 18-28):
SYSTEM_PROMPT_TEMPLATE.format(paper_txt=paper_txt).  Since the template
holds exactly one format field and no other brace, formatting substitutes
the document text at that position and leaves the rest verbatim. -/
def create_system_prompt (paper_txt : String) : String :=
  SYSTEM_PROMPT_BEFORE ++ paper_txt ++ SYSTEM_PROMPT_AFTER

/-! ### Data model -/

/-- A chat message dict with role and content keys (app.py lines 47-49). -/
structure Message where
  role : String
  content : String
deriving DecidableEq, Repr

/-- The lisette Chat handle, modelled by the constructor arguments the code
passes (app.py lines 98-102): model, system prompt (sp) and temperature. -/
structure Chat where
  model : String
  sp : String
  temp : ℚ
deriving DecidableEq, Repr

/-- The Streamlit session state fields the app uses (app.py lines 45-57). -/
structure SessionState where
  messages : List Message
  paper_txt : Option String
  llm : Option Chat
deriving DecidableEq, Repr

/-- Initial session state (app.py lines 47-57): empty message list, no
paper text, no Chat handle. -/
def initialState : SessionState :=
  { messages := [], paper_txt := none, llm := none }

/-- A user-visible box rendered by st.error / st.warning / st.success. -/
inductive UiMsg where
  | errorBox (text : String)
  | warningBox (text : String)
  | successBox (text : String)
deriving DecidableEq, Repr

/-- Comma grouping of a reversed digit list, three digits at a time
(the path of a Python format spec with a comma, as in paper_length). -/
def commaRev : List Char → List Char
  | a :: b :: c :: d :: rest => a :: b :: c :: ',' :: commaRev (d :: rest)
  | l => l

/-- Render a natural number with thousands separators, as Python
format(n, ",") does for nonnegative integers. -/
def commaFmt (n : ℕ) : String :=
  String.mk ((commaRev (Nat.repr n).data.reverse).reverse)

/-- Error shown when OPENAI_API_KEY is absent (app.py line 42). -/
def apiKeyMissingText : String :=
  "⚠️ OPENAI_API_KEY not found in environment variables. Please set it in your .env file."

/-- First error of the too-large branch (app.py line 86). -/
def tooLargeText (paper_length : ℕ) : String :=
  "❌ Paper is too large (" ++ commaFmt paper_length
    ++ " characters). Maximum supported size is " ++ commaFmt MAX_PAPER_CHARS
    ++ " characters."

/-- Second error of the too-large branch (app.py line 87). -/
def splitSectionsText : String :=
  "Please upload a shorter paper or consider splitting it into sections."

/-- Warning of the quite-large branch (app.py line 89). -/
def quiteLargeText (paper_length : ℕ) : String :=
  "⚠️ Paper is quite large (" ++ commaFmt paper_length
    ++ " characters). This may result in higher API costs and slower responses."

/-- Success box after processing (app.py line 109). -/
def processedText : String :=
  "✅ PDF processed successfully! You can now ask questions about the paper."

/-- First error of the upload except branch (app.py line 113). -/
def processErrorText (e : String) : String :=
  "❌ Error processing PDF: " ++ e

/-- Second error of the upload except branch (app.py line 114). -/
def validPdfText : String :=
  "Please make sure you uploaded a valid PDF file."

/-- Assistant content appended when the model call raises (app.py line 203). -/
def generateErrorText (e : String) : String :=
  "❌ Error generating response: " ++ e

/-! ### Event model

Each Streamlit rerun carries at most one user action.  The outcomes of the
two external collaborators are injected as event data: extractResult is the
result of pymupdf4llm.to_markdown on the uploaded bytes (error = the raised
exception text), createErr is the exception text raised by the lisette Chat
constructor if it fails (none = construction succeeds), and sendResult is
the outcome of calling the Chat handle on the prompt. -/

inductive AppEvent where
  | upload (extractResult : Except String String) (createErr : Option String)
  | reinitClick (createErr : Option String)
  | clearClick
  | chatInput (prompt : String) (sendResult : Except String String)
  | rerun
deriving Repr

/-! ### Handlers (app.py) -/

/-- Upload processing block (app.py lines 67-125).  Guarded by
`uploaded_file is not None and st.session_state.paper_txt is None`
(line 67): when paper_txt is already set nothing runs.  Otherwise the PDF
is converted; on an exception anywhere in the try block both paper_txt and
llm are reset to None (lines 111-117).  On extraction success the size
guard runs (lines 84-92); only when the length is within MAX_PAPER_CHARS
is the system prompt built and the Chat constructed (lines 92-109), and
paper_txt / llm are stored only after the constructor returned.  The
finally block only removes the temporary file and does not touch session
state. -/
def handleUpload (st : SessionState) (extractResult : Except String String)
    (createErr : Option String) : SessionState × List UiMsg :=
  match st.paper_txt with
  | some _ => (st, [])
  | none =>
    match extractResult with
    | Except.error e =>
      ({ st with paper_txt := none, llm := none },
       [UiMsg.errorBox (processErrorText e), UiMsg.errorBox validPdfText])
    | Except.ok paper_txt =>
      let paper_length := paper_txt.length
      let sizeMsgs : List UiMsg :=
        if paper_length > MAX_PAPER_CHARS then
          [UiMsg.errorBox (tooLargeText paper_length), UiMsg.errorBox splitSectionsText]
        else if paper_length > WARNING_PAPER_CHARS then
          [UiMsg.warningBox (quiteLargeText paper_length)]
        else []
      if paper_length ≤ MAX_PAPER_CHARS then
        match createErr with
        | none =>
          let system_prompt := create_system_prompt paper_txt
          let llm : Chat := ⟨DEFAULT_MODEL, system_prompt, DEFAULT_TEMPERATURE⟩
          ({ st with paper_txt := some paper_txt, llm := some llm },
           sizeMsgs ++ [UiMsg.successBox processedText])
        | some e =>
          ({ st with paper_txt := none, llm := none },
           sizeMsgs ++ [UiMsg.errorBox (processErrorText e), UiMsg.errorBox validPdfText])
      else
        (st, sizeMsgs)

/-- Reinitialize button block (app.py lines 131-144), rendered only when
paper_txt is set and llm is None.  On success the Chat is rebuilt from the
retained paper text; on an exception llm stays None and an error is shown. -/
def handleReinit (st : SessionState) (pt : String) (createErr : Option String) :
    SessionState × List UiMsg :=
  match createErr with
  | none =>
    ({ st with llm := some ⟨DEFAULT_MODEL, create_system_prompt pt, DEFAULT_TEMPERATURE⟩ },
     [UiMsg.successBox "✅ AI tutor reinitialized successfully!"])
  | some e =>
    (st, [UiMsg.errorBox ("❌ Failed to reinitialize: " ++ e)])

/-- Clear Chat button block (app.py lines 149-160), rendered only when
paper_txt and llm are both set: messages is reset to the empty list and the
Chat is rebuilt from the retained paper text with the same constructor
arguments. -/
def handleClear (st : SessionState) (pt : String) : SessionState :=
  { st with
    messages := [],
    llm := some ⟨DEFAULT_MODEL, create_system_prompt pt, DEFAULT_TEMPERATURE⟩ }

/-- Chat input block (app.py lines 171-207), rendered only when paper_txt
and llm are both set.  The user message is appended first (line 173); then
the model is called inside try: on success the reply content is appended as
an assistant message (lines 187-199), on an exception an assistant message
holding the formatted error string is appended (lines 201-207).  paper_txt
and llm are not modified. -/
def handleChat (st : SessionState) (prompt : String)
    (sendResult : Except String String) : SessionState × List UiMsg :=
  let st1 := { st with messages := st.messages ++ [Message.mk "user" prompt] }
  match sendResult with
  | Except.ok response_text =>
    ({ st1 with messages := st1.messages ++ [Message.mk "assistant" response_text] }, [])
  | Except.error e =>
    ({ st1 with messages := st1.messages ++ [Message.mk "assistant" (generateErrorText e)] }, [])

/-- One Streamlit script run (app.py top to bottom).  keyOk is whether
os.getenv("OPENAI_API_KEY") is set: when it is not, st.error plus st.stop
(lines 41-43) end the run before the uploader widget, so the state is
untouched whatever the pending event was.  Otherwise the event's handler
block runs; the reinit, clear and chat blocks are only rendered in the
states where the code reaches them (lines 128, 131, 145), so in other
states those events cannot fire and the run is a plain rerun. -/
def step (keyOk : Bool) (st : SessionState) (ev : AppEvent) :
    SessionState × List UiMsg :=
  if keyOk then
    match ev with
    | AppEvent.upload ex ce => handleUpload st ex ce
    | AppEvent.reinitClick ce =>
      match st.paper_txt, st.llm with
      | some pt, none => handleReinit st pt ce
      | _, _ => (st, [])
    | AppEvent.clearClick =>
      match st.paper_txt, st.llm with
      | some pt, some _ => (handleClear st pt, [])
      | _, _ => (st, [])
    | AppEvent.chatInput p r =>
      match st.paper_txt, st.llm with
      | some _, some _ => handleChat st p r
      | _, _ => (st, [])
    | AppEvent.rerun => (st, [])
  else
    (st, [UiMsg.errorBox apiKeyMissingText])

/-- Run a sequence of script runs from a state. -/
def runTrace (keyOk : Bool) : SessionState → List AppEvent → SessionState
  | st, [] => st
  | st, ev :: evs => runTrace keyOk (step keyOk st ev).1 evs

/-- States reachable from the initial session state by script runs, under
either credential situation and any sequence of events. -/
inductive Reachable : SessionState → Prop where
  | base : Reachable initialState
  | next (keyOk : Bool) (ev : AppEvent) {st : SessionState} :
      Reachable st → Reachable (step keyOk st ev).1

/-! ### Transcript shape predicates -/

/-- The transcript is a sequence of user/assistant pairs: strict alternation
starting with a user message, with full pairs only.  This is the shape the
handlers maintain: the chat block appends exactly one user and one assistant
message per turn and no other block appends messages. -/
def rolesOk : List Message → Bool
  | [] => true
  | [_] => false
  | u :: a :: rest => u.role == "user" && a.role == "assistant" && rolesOk rest

/-- Strict alternation of user and assistant roles; the flag is true when the
next expected role is user.  alternatingFromUser true ms states that ms is a
strict alternation beginning with a user message (trailing user message
allowed), the invariant claimed for the transcript. -/
def alternatingFromUser : Bool → List Message → Bool
  | _, [] => true
  | b, m :: rest =>
    m.role == (if b then "user" else "assistant") && alternatingFromUser (!b) rest

/-- The inductive invariant of the session state: the transcript is a
sequence of complete user/assistant turn pairs, and a stored paper text
always comes with a constructed Chat handle. -/
def GoodState (st : SessionState) : Prop :=
  rolesOk st.messages = true ∧ (st.paper_txt.isSome → st.llm.isSome)

/-- A concrete Ready state: document A processed and one completed turn. -/
def readyStateA : SessionState :=
  { messages := [Message.mk "user" "q1", Message.mk "assistant" "a1"],
    paper_txt := some "doc A",
    llm := some ⟨DEFAULT_MODEL, create_system_prompt "doc A", DEFAULT_TEMPERATURE⟩ }

/-- A concrete extracted text beyond MAX_PAPER_CHARS. -/
def oversizedDoc : String := String.mk (List.replicate 100001 'a')

/-- A concrete extracted text above the warning bound and within the limit. -/
def warnSizedDoc : String := String.mk (List.replicate 80001 'a')

/-- State after a successful small upload from the initial state. -/
def uploadedState : SessionState :=
  (step true initialState (AppEvent.upload (Except.ok "d") none)).1

/-- State after a successful small upload followed by one successful turn. -/
def twoTurnState : SessionState :=
  (step true (step true initialState (AppEvent.upload (Except.ok "d") none)).1
    (AppEvent.chatInput "q" (Except.ok "a"))).1

/-! ### Helper lemmas -/

/-- Appending one user message and one assistant message to a transcript of
complete pairs yields a transcript of complete pairs. -/
theorem rolesOk_append_pair (p r : String) :
    ∀ ms : List Message, rolesOk ms = true →
      rolesOk (ms ++ [Message.mk "user" p, Message.mk "assistant" r]) = true
  | [], _ => by simp [rolesOk]
  | [_], h => by simp [rolesOk] at h
  | u :: a :: rest, h => by
    simp only [rolesOk, Bool.and_eq_true, beq_iff_eq] at h
    simp only [List.cons_append, rolesOk, Bool.and_eq_true, beq_iff_eq]
    exact ⟨⟨h.1.1, h.1.2⟩, rolesOk_append_pair p r rest h.2⟩

/-- A transcript of complete pairs is a strict alternation beginning with a
user message. -/
theorem rolesOk_alternating :
    ∀ ms : List Message, rolesOk ms = true → alternatingFromUser true ms = true
  | [], _ => rfl
  | [_], h => by simp [rolesOk] at h
  | u :: a :: rest, h => by
    simp only [rolesOk, Bool.and_eq_true, beq_iff_eq] at h
    simp only [alternatingFromUser, Bool.not_true, Bool.not_false, if_true, if_false,
      Bool.and_eq_true, beq_iff_eq]
    exact ⟨h.1.1, h.1.2, rolesOk_alternating rest h.2⟩

/-- In a transcript of complete pairs every role is user or assistant. -/
theorem rolesOk_no_system :
    ∀ ms : List Message, rolesOk ms = true → ∀ m ∈ ms, m.role ≠ "system"
  | [], _ => by simp
  | [_], h => by simp [rolesOk] at h
  | u :: a :: rest, h => by
    simp only [rolesOk, Bool.and_eq_true, beq_iff_eq] at h
    intro m hm
    rcases List.mem_cons.mp hm with rfl | hm
    · rw [h.1.1]; decide
    rcases List.mem_cons.mp hm with rfl | hm
    · rw [h.1.2]; decide
    · exact rolesOk_no_system rest h.2 m hm

/-- The upload block either leaves the state unchanged, resets paper_txt and
llm to None, or stores the extracted text together with the freshly
constructed Chat handle. -/
theorem handleUpload_state_cases (st : SessionState) (ex : Except String String)
    (ce : Option String) :
    (handleUpload st ex ce).1 = st ∨
    (handleUpload st ex ce).1 = { st with paper_txt := none, llm := none } ∨
    (∃ t, ex = Except.ok t ∧
      (handleUpload st ex ce).1 =
        { st with paper_txt := some t,
                  llm := some ⟨DEFAULT_MODEL, create_system_prompt t, DEFAULT_TEMPERATURE⟩ }) := by
  cases hp : st.paper_txt with
  | some _ => left; simp [handleUpload, hp]
  | none =>
    cases ex with
    | error e => right; left; simp [handleUpload, hp]
    | ok t =>
      by_cases h2 : t.length ≤ MAX_PAPER_CHARS
      · cases ce with
        | none => right; right; exact ⟨t, rfl, by simp [handleUpload, hp, h2]⟩
        | some e => right; left; simp [handleUpload, hp, h2]
      · left; simp [handleUpload, hp, h2]

/-- Every script run preserves the inductive invariant. -/
theorem goodState_step (keyOk : Bool) (ev : AppEvent) (st : SessionState)
    (h : GoodState st) : GoodState (step keyOk st ev).1 := by
  cases keyOk with
  | false => simpa [step] using h
  | true =>
    cases ev with
    | upload ex ce =>
      show GoodState (handleUpload st ex ce).1
      rcases handleUpload_state_cases st ex ce with hc | hc | ⟨t, _, hc⟩
      · rw [hc]; exact h
      · rw [hc]; exact ⟨h.1, by simp⟩
      · rw [hc]; exact ⟨h.1, by simp⟩
    | reinitClick ce =>
      cases hp : st.paper_txt with
      | none => simpa [step, hp] using h
      | some pt =>
        cases hl : st.llm with
        | none => exact absurd (h.2 (by simp [hp])) (by simp [hl])
        | some c => simpa [step, hp, hl] using h
    | clearClick =>
      cases hp : st.paper_txt with
      | none => simpa [step, hp] using h
      | some pt =>
        cases hl : st.llm with
        | none => simpa [step, hp, hl] using h
        | some c =>
          have : (step true st AppEvent.clearClick).1 = handleClear st pt := by
            simp [step, hp, hl]
          rw [this]
          exact ⟨rfl, by simp [handleClear]⟩
    | chatInput p r =>
      cases hp : st.paper_txt with
      | none => simpa [step, hp] using h
      | some pt =>
        cases hl : st.llm with
        | none => simpa [step, hp, hl] using h
        | some c =>
          have hs : (step true st (AppEvent.chatInput p r)).1 = (handleChat st p r).1 := by
            simp [step, hp, hl]
          rw [hs]
          cases r with
          | ok resp =>
            refine ⟨?_, by simp [handleChat, hp, hl]⟩
            show rolesOk ((st.messages ++ [Message.mk "user" p]) ++
              [Message.mk "assistant" resp]) = true
            rw [List.append_assoc]
            exact rolesOk_append_pair p resp st.messages h.1
          | error e =>
            refine ⟨?_, by simp [handleChat, hp, hl]⟩
            show rolesOk ((st.messages ++ [Message.mk "user" p]) ++
              [Message.mk "assistant" (generateErrorText e)]) = true
            rw [List.append_assoc]
            exact rolesOk_append_pair p (generateErrorText e) st.messages h.1
    | rerun => simpa [step] using h

/-- Every reachable session state satisfies the inductive invariant. -/
theorem reachable_good {st : SessionState} (h : Reachable st) : GoodState st := by
  induction h with
  | base => exact ⟨rfl, by simp [initialState]⟩
  | next keyOk ev h ih => exact goodState_step keyOk ev _ ih

/-! ### Claim C1 -/

/-- C1: for every extracted document text t with len(t) > MAX_PAPER_CHARS the
upload handler leaves the session state untouched — in particular Document
Text (paper_txt) remains None, back to the Empty situation — and the result
does not depend on the Chat construction outcome, i.e. no Conversation
Session is constructed (app.py lines 84-106). -/
theorem upload_oversized_no_session (st : SessionState) (t : String)
    (ce : Option String) (h0 : st.paper_txt = none)
    (h1 : MAX_PAPER_CHARS < t.length) :
    (handleUpload st (Except.ok t) ce).1 = st ∧
    (handleUpload st (Except.ok t) ce).1.paper_txt = none ∧
    ∀ ce' : Option String,
      handleUpload st (Except.ok t) ce = handleUpload st (Except.ok t) ce' := by
  have h2 : ¬ t.length ≤ MAX_PAPER_CHARS := not_le.mpr h1
  refine ⟨?_, ?_, ?_⟩
  · simp [handleUpload, h0, h2]
  · simp [handleUpload, h0, h2]
  · intro ce'
    simp [handleUpload, h0, h2]

/-- C1 witness: a 100001-character text is rejected from the initial state. -/
theorem upload_oversized_no_session_witness :
    MAX_PAPER_CHARS < oversizedDoc.length ∧
    (handleUpload initialState (Except.ok oversizedDoc) (some "boom")).1.paper_txt = none := by
  have hlen : MAX_PAPER_CHARS < oversizedDoc.length := by
    show MAX_PAPER_CHARS < (List.replicate 100001 'a').length
    rw [List.length_replicate]
    decide
  exact ⟨hlen,
    (upload_oversized_no_session initialState oversizedDoc (some "boom") rfl hlen).2.1⟩

/-! ### Claim C2 -/

/-- If the constant part after the substitution point splits around a piece r,
then the built prompt contains r as a substring for every document text. -/
theorem contains_of_after_split (t r x y : String)
    (h : SYSTEM_PROMPT_AFTER = x ++ (r ++ y)) :
    ∃ a b, create_system_prompt t = a ++ r ++ b :=
  ⟨SYSTEM_PROMPT_BEFORE ++ t ++ x, y, by
    unfold create_system_prompt
    rw [h]
    simp [String.append_assoc]⟩

/-- C2: create_system_prompt is a fixed total function of its input: the
result is the constant template text with the document text substituted at
the single placeholder, hence it contains the input verbatim as a substring
and contains every one of the eight fixed rule lines unmodified
(app.py lines 18-28, config.py lines 6-27). -/
theorem create_system_prompt_contains (t : String) :
    create_system_prompt t = SYSTEM_PROMPT_BEFORE ++ t ++ SYSTEM_PROMPT_AFTER ∧
    (∃ a b, create_system_prompt t = a ++ t ++ b) ∧
    ∀ r ∈ RULE_LINES, ∃ a b, create_system_prompt t = a ++ r ++ b := by
  refine ⟨rfl, ⟨SYSTEM_PROMPT_BEFORE, SYSTEM_PROMPT_AFTER, rfl⟩, ?_⟩
  intro r hr
  simp only [RULE_LINES, List.mem_cons, List.not_mem_nil, or_false] at hr
  rcases hr with rfl | rfl | rfl | rfl | rfl | rfl | rfl | rfl
  · exact contains_of_after_split t RULE1 RULES_HEADER
      ("\n" ++ RULE2 ++ "\n" ++ RULE3 ++ "\n" ++ RULE4 ++ "\n" ++ RULE5 ++ "\n"
        ++ RULE6 ++ "\n" ++ RULE7 ++ "\n" ++ RULE8 ++ AFTER_RULES)
      (by simp [SYSTEM_PROMPT_AFTER, String.append_assoc])
  · exact contains_of_after_split t RULE2 (RULES_HEADER ++ RULE1 ++ "\n")
      ("\n" ++ RULE3 ++ "\n" ++ RULE4 ++ "\n" ++ RULE5 ++ "\n"
        ++ RULE6 ++ "\n" ++ RULE7 ++ "\n" ++ RULE8 ++ AFTER_RULES)
      (by simp [SYSTEM_PROMPT_AFTER, String.append_assoc])
  · exact contains_of_after_split t RULE3 (RULES_HEADER ++ RULE1 ++ "\n" ++ RULE2 ++ "\n")
      ("\n" ++ RULE4 ++ "\n" ++ RULE5 ++ "\n" ++ RULE6 ++ "\n" ++ RULE7 ++ "\n"
        ++ RULE8 ++ AFTER_RULES)
      (by simp [SYSTEM_PROMPT_AFTER, String.append_assoc])
  · exact contains_of_after_split t RULE4
      (RULES_HEADER ++ RULE1 ++ "\n" ++ RULE2 ++ "\n" ++ RULE3 ++ "\n")
      ("\n" ++ RULE5 ++ "\n" ++ RULE6 ++ "\n" ++ RULE7 ++ "\n" ++ RULE8 ++ AFTER_RULES)
      (by simp [SYSTEM_PROMPT_AFTER, String.append_assoc])
  · exact contains_of_after_split t RULE5
      (RULES_HEADER ++ RULE1 ++ "\n" ++ RULE2 ++ "\n" ++ RULE3 ++ "\n" ++ RULE4 ++ "\n")
      ("\n" ++ RULE6 ++ "\n" ++ RULE7 ++ "\n" ++ RULE8 ++ AFTER_RULES)
      (by simp [SYSTEM_PROMPT_AFTER, String.append_assoc])
  · exact contains_of_after_split t RULE6
      (RULES_HEADER ++ RULE1 ++ "\n" ++ RULE2 ++ "\n" ++ RULE3 ++ "\n" ++ RULE4 ++ "\n"
        ++ RULE5 ++ "\n")
      ("\n" ++ RULE7 ++ "\n" ++ RULE8 ++ AFTER_RULES)
      (by simp [SYSTEM_PROMPT_AFTER, String.append_assoc])
  · exact contains_of_after_split t RULE7
      (RULES_HEADER ++ RULE1 ++ "\n" ++ RULE2 ++ "\n" ++ RULE3 ++ "\n" ++ RULE4 ++ "\n"
        ++ RULE5 ++ "\n" ++ RULE6 ++ "\n")
      ("\n" ++ RULE8 ++ AFTER_RULES)
      (by simp [SYSTEM_PROMPT_AFTER, String.append_assoc])
  · exact contains_of_after_split t RULE8
      (RULES_HEADER ++ RULE1 ++ "\n" ++ RULE2 ++ "\n" ++ RULE3 ++ "\n" ++ RULE4 ++ "\n"
        ++ RULE5 ++ "\n" ++ RULE6 ++ "\n" ++ RULE7 ++ "\n")
      AFTER_RULES
      (by simp [SYSTEM_PROMPT_AFTER, String.append_assoc])

/-- C2 witness: the prompt built from a concrete document contains the
document and the first rule line. -/
theorem create_system_prompt_contains_witness :
    RULE1 ∈ RULE_LINES ∧
    (∃ a b, create_system_prompt "the document" = a ++ RULE1 ++ b) :=
  ⟨by simp [RULE_LINES],
   (create_system_prompt_contains "the document").2.2 RULE1 (by simp [RULE_LINES])⟩

/-! ### Claim C3 -/

/-- C3 counterexample: extraction succeeded with a small text but the Chat
constructor raised; the upload handler does NOT retain the Document Text —
the except branch (app.py lines 111-117) resets paper_txt and llm to None. -/
theorem init_failure_retention_counterexample :
    (handleUpload initialState (Except.ok "paper text") (some "boom")).1.paper_txt ≠
      some "paper text" ∧
    (handleUpload initialState (Except.ok "paper text") (some "boom")).1.paper_txt = none ∧
    (handleUpload initialState (Except.ok "paper text") (some "boom")).1.llm = none :=
  ⟨by decide, rfl, rfl⟩

/-- C3 (amended): if extraction succeeds with text within the size limit but
the Chat construction fails, the except branch resets BOTH paper_txt and llm
to None — Document Text is not retained, the state returns to Empty (so the
reinitialize path is never entered), and the transcript is untouched. -/
theorem init_failure_resets_state (st : SessionState) (t e : String)
    (h0 : st.paper_txt = none) (h1 : t.length ≤ MAX_PAPER_CHARS) :
    (handleUpload st (Except.ok t) (some e)).1.paper_txt = none ∧
    (handleUpload st (Except.ok t) (some e)).1.llm = none ∧
    (handleUpload st (Except.ok t) (some e)).1.messages = st.messages := by
  refine ⟨?_, ?_, ?_⟩ <;> simp [handleUpload, h0, h1]

/-- C3 witness: the amended behavior on a concrete small text. -/
theorem init_failure_resets_state_witness :
    "paper text".length ≤ MAX_PAPER_CHARS ∧
    (handleUpload initialState (Except.ok "paper text") (some "boom")).1.llm = none :=
  ⟨by decide,
   (init_failure_resets_state initialState "paper text" "boom" rfl (by decide)).2.1⟩

/-! ### Claim C4 -/

/-- C4 counterexample: uploading document B while the session is Ready with
document A leaves the state exactly as it was — the old Document Text,
Transcript and Session all remain (the guard on app.py line 67 skips the
whole upload block when paper_txt is set), instead of discarding them and
extracting the new bytes. -/
theorem second_upload_counterexample :
    (handleUpload readyStateA (Except.ok "doc B") none).1 = readyStateA ∧
    (handleUpload readyStateA (Except.ok "doc B") none).1.paper_txt ≠ some "doc B" ∧
    (handleUpload readyStateA (Except.ok "doc B") none).1.messages ≠ [] :=
  ⟨rfl, by decide, by decide⟩

/-- C4 (amended): while a Session exists (paper_txt is set), a new
document-uploaded event is ignored: the upload block is a no-op and Document
Text, Transcript and Session are all unchanged — no extraction and no
session construction happens for the new bytes. -/
theorem second_upload_ignored (st : SessionState) (pt : String)
    (h : st.paper_txt = some pt) (ex : Except String String) (ce : Option String) :
    handleUpload st ex ce = (st, []) := by
  simp [handleUpload, h]

/-- C4 witness: the amended behavior on a concrete Ready state. -/
theorem second_upload_ignored_witness :
    readyStateA.paper_txt = some "doc A" ∧
    handleUpload readyStateA (Except.ok "doc B") none = (readyStateA, []) :=
  ⟨rfl, second_upload_ignored readyStateA "doc A" rfl (Except.ok "doc B") none⟩

/-! ### Claim C5 -/

/-- C5: if the model call fails on a turn in the Ready state, the chat block
appends the user message and then an assistant message holding the formatted
error string, leaving every earlier transcript entry intact (the old list is
a prefix of the new one), and paper_txt and llm are unchanged so the session
stays Ready for subsequent turns (app.py lines 171-207). -/
theorem send_failure_isolated (st : SessionState) (pt : String) (c : Chat)
    (p e : String) (h0 : st.paper_txt = some pt) (h1 : st.llm = some c) :
    (step true st (AppEvent.chatInput p (Except.error e))).1.messages =
      st.messages ++
        [Message.mk "user" p, Message.mk "assistant" (generateErrorText e)] ∧
    (step true st (AppEvent.chatInput p (Except.error e))).1.llm = some c ∧
    (step true st (AppEvent.chatInput p (Except.error e))).1.paper_txt = some pt := by
  have hs : (step true st (AppEvent.chatInput p (Except.error e))).1 =
      (handleChat st p (Except.error e)).1 := by
    simp [step, h0, h1]
  rw [hs]
  refine ⟨?_, by simp [handleChat, h1], by simp [handleChat, h0]⟩
  show (st.messages ++ [Message.mk "user" p]) ++
      [Message.mk "assistant" (generateErrorText e)] =
    st.messages ++ [Message.mk "user" p, Message.mk "assistant" (generateErrorText e)]
  rw [List.append_assoc]
  rfl

/-- C5 witness: a failing second turn on a concrete Ready state keeps the
first turn intact and pairs the new user message with the error reply. -/
theorem send_failure_isolated_witness :
    readyStateA.llm.isSome = true ∧
    (step true readyStateA (AppEvent.chatInput "q2" (Except.error "rate limit"))).1.messages =
      [Message.mk "user" "q1", Message.mk "assistant" "a1", Message.mk "user" "q2",
       Message.mk "assistant" (generateErrorText "rate limit")] := by
  have h := send_failure_isolated readyStateA "doc A"
    ⟨DEFAULT_MODEL, create_system_prompt "doc A", DEFAULT_TEMPERATURE⟩
    "q2" "rate limit" rfl rfl
  exact ⟨rfl, h.1⟩

/-! ### Claim C6 -/

/-- C6: clicking Clear Chat twice in a row from a Ready state yields the same
state both times — after one click the transcript is empty and the Chat is
freshly rebuilt from the retained paper text with the same constructor
arguments, and a second click reproduces exactly that state
(app.py lines 149-160). -/
theorem clear_chat_idempotent (st : SessionState) (pt : String) (c : Chat)
    (h0 : st.paper_txt = some pt) (h1 : st.llm = some c) :
    (step true (step true st AppEvent.clearClick).1 AppEvent.clearClick).1 =
      (step true st AppEvent.clearClick).1 ∧
    (step true st AppEvent.clearClick).1.messages = [] ∧
    (step true st AppEvent.clearClick).1.paper_txt = some pt ∧
    (step true st AppEvent.clearClick).1.llm =
      some ⟨DEFAULT_MODEL, create_system_prompt pt, DEFAULT_TEMPERATURE⟩ := by
  have hs : (step true st AppEvent.clearClick).1 = handleClear st pt := by
    simp [step, h0, h1]
  have hs2 : (step true (handleClear st pt) AppEvent.clearClick).1 =
      handleClear (handleClear st pt) pt := by
    simp [step, handleClear, h0]
  refine ⟨?_, by rw [hs]; rfl, by rw [hs]; simp [handleClear, h0], by rw [hs]; rfl⟩
  rw [hs, hs2]
  simp [handleClear]

/-- C6 witness: double clear on a concrete Ready state. -/
theorem clear_chat_idempotent_witness :
    readyStateA.paper_txt = some "doc A" ∧
    (step true (step true readyStateA AppEvent.clearClick).1 AppEvent.clearClick).1 =
      (step true readyStateA AppEvent.clearClick).1 ∧
    (step true readyStateA AppEvent.clearClick).1.messages = [] := by
  have h := clear_chat_idempotent readyStateA "doc A"
    ⟨DEFAULT_MODEL, create_system_prompt "doc A", DEFAULT_TEMPERATURE⟩ rfl rfl
  exact ⟨rfl, h.1, h.2.1⟩

/-! ### Claim C7 -/

/-- C7: in every reachable session state the transcript is a strict
alternation of user and assistant roles beginning with a user message, and
the system instruction never appears in it (no message carries the system
role; the instruction is only passed as the sp constructor argument).  The
alternation is preserved by every operation: upload, turn, failed turn,
clear chat and reinitialize (app.py lines 149-160 and 171-207). -/
theorem transcript_alternation (st : SessionState) (h : Reachable st) :
    alternatingFromUser true st.messages = true ∧
    ∀ m ∈ st.messages, m.role ≠ "system" := by
  have hg := reachable_good h
  exact ⟨rolesOk_alternating st.messages hg.1, rolesOk_no_system st.messages hg.1⟩

/-- C7 witness: the state reached by an upload and one successful turn has an
alternating transcript. -/
theorem transcript_alternation_witness :
    alternatingFromUser true twoTurnState.messages = true :=
  (transcript_alternation twoTurnState
    (Reachable.next true (AppEvent.chatInput "q" (Except.ok "a"))
      (Reachable.next true (AppEvent.upload (Except.ok "d") none) Reachable.base))).1

/-! ### Claim C8 -/

/-- C8: for extracted text with WARNING_PAPER_CHARS < len ≤ MAX_PAPER_CHARS
the upload handler surfaces the size warning and still proceeds: the system
prompt is built, the Chat is constructed, paper_txt is stored, and the
success box follows the warning (app.py lines 84-109). -/
theorem size_warning_nonblocking (st : SessionState) (t : String)
    (h0 : st.paper_txt = none)
    (h1 : WARNING_PAPER_CHARS < t.length) (h2 : t.length ≤ MAX_PAPER_CHARS) :
    handleUpload st (Except.ok t) none =
      ({ st with paper_txt := some t,
                 llm := some ⟨DEFAULT_MODEL, create_system_prompt t, DEFAULT_TEMPERATURE⟩ },
       [UiMsg.warningBox (quiteLargeText t.length), UiMsg.successBox processedText]) := by
  have h3 : ¬ t.length > MAX_PAPER_CHARS := not_lt.mpr h2
  simp [handleUpload, h0, h1, h2, h3]

/-- C8 witness: an 80001-character text triggers the warning and the session
is still created. -/
theorem size_warning_nonblocking_witness :
    WARNING_PAPER_CHARS < warnSizedDoc.length ∧
    warnSizedDoc.length ≤ MAX_PAPER_CHARS ∧
    (handleUpload initialState (Except.ok warnSizedDoc) none).1.paper_txt = some warnSizedDoc ∧
    (handleUpload initialState (Except.ok warnSizedDoc) none).2 =
      [UiMsg.warningBox (quiteLargeText warnSizedDoc.length), UiMsg.successBox processedText] := by
  have hw : WARNING_PAPER_CHARS < warnSizedDoc.length := by
    show WARNING_PAPER_CHARS < (List.replicate 80001 'a').length
    rw [List.length_replicate]
    decide
  have hm : warnSizedDoc.length ≤ MAX_PAPER_CHARS := by
    show (List.replicate 80001 'a').length ≤ MAX_PAPER_CHARS
    rw [List.length_replicate]
    decide
  have h := size_warning_nonblocking initialState warnSizedDoc rfl hw hm
  exact ⟨hw, hm, by rw [h], by rw [h]⟩

/-! ### Claim C9 -/

/-- C9: with OPENAI_API_KEY missing, every script run shows the credential
error and stops before the uploader widget (app.py lines 41-43): no event
changes the session state, and any sequence of events from startup leaves
the state at its initial value — no upload is accepted or processed and no
session is ever constructed. -/
theorem missing_key_halts :
    (∀ (st : SessionState) (ev : AppEvent),
        step false st ev = (st, [UiMsg.errorBox apiKeyMissingText])) ∧
    ∀ evs : List AppEvent, runTrace false initialState evs = initialState := by
  have hstep : ∀ (st : SessionState) (ev : AppEvent),
      step false st ev = (st, [UiMsg.errorBox apiKeyMissingText]) := by
    intro st ev
    simp [step]
  refine ⟨hstep, ?_⟩
  have aux : ∀ (evs : List AppEvent) (st : SessionState), runTrace false st evs = st := by
    intro evs
    induction evs with
    | nil => intro st; rfl
    | cons e es ih =>
      intro st
      show runTrace false (step false st e).1 es = st
      rw [hstep st e]
      exact ih st
  exact fun evs => aux evs initialState

/-! ### Claim C10 -/

/-- C10: in every reachable session state, paper_txt being set implies llm is
set — paper_txt is only stored after the Chat constructor returned, and the
except branch resets both (app.py lines 98-117) — therefore the
Reinitialize AI Tutor branch (app.py lines 128-144), which requires
paper_txt set and llm unset, never runs: a reinitialize event is a no-op in
every reachable state. -/
theorem paper_implies_llm (st : SessionState) (h : Reachable st) :
    (st.paper_txt.isSome → st.llm.isSome) ∧
    ∀ ce : Option String, step true st (AppEvent.reinitClick ce) = (st, []) := by
  have hg := reachable_good h
  refine ⟨hg.2, ?_⟩
  intro ce
  cases hp : st.paper_txt with
  | none => simp [step, hp]
  | some pt =>
    cases hl : st.llm with
    | none => exact absurd (hg.2 (by simp [hp])) (by simp [hl])
    | some c => simp [step, hp, hl]

/-- C10 witness: after a successful upload the invariant holds concretely and
a reinitialize click (even one whose constructor would fail) changes
nothing. -/
theorem paper_implies_llm_witness :
    uploadedState.llm.isSome = true ∧
    step true uploadedState (AppEvent.reinitClick (some "boom")) = (uploadedState, []) := by
  have h := paper_implies_llm uploadedState
    (Reachable.next true (AppEvent.upload (Except.ok "d") none) Reachable.base)
  exact ⟨h.1 rfl, h.2 (some "boom")⟩
